import Mathlib

/-!
Verification of the dish-classification engine of the `rhlunch` repository
(`lunchscraper/dish_classifier.py`), embedded shallowly: Python strings are
Lean `String`s (lists of unicode characters), Python `str.lower()` /
`str.strip()` / substring containment are modelled by executable character
list functions below, and the class-level keyword tables are constant lists.
-/

namespace RhLunch

/-- Lowercase one character the way Python `str.lower()` does on the
alphabet this program actually uses: ASCII letters plus the Swedish
letters Å, Ä, Ö and É. -/
def pyLowerChar (c : Char) : Char :=
  if 65 ≤ c.toNat ∧ c.toNat ≤ 90 then Char.ofNat (c.toNat + 32)
  else if c = 'Å' then 'å'
  else if c = 'Ä' then 'ä'
  else if c = 'Ö' then 'ö'
  else if c = 'É' then 'é'
  else c

/-- Python `str.lower()` on the program's alphabet. -/
def pyLower (s : String) : String :=
  String.mk (s.data.map pyLowerChar)

/-- Whitespace characters stripped by Python `str.strip()` (the ones that
occur in this program's data). -/
def pyIsSpace (c : Char) : Bool :=
  c == ' ' || c == '\t' || c == '\n' || c == '\r'

/-- Python `str.strip()`: remove leading and trailing whitespace. -/
def strTrim (s : String) : String :=
  String.mk (((s.data.dropWhile pyIsSpace).reverse.dropWhile pyIsSpace).reverse)

/-- `listPrefixEq p l` decides whether the character list `p` is an initial
segment of `l`. -/
def listPrefixEq : List Char → List Char → Bool
  | [], _ => true
  | _ :: _, [] => false
  | a :: as, b :: bs => a == b && listPrefixEq as bs

/-- `listContainsSub sub l` decides whether `sub` occurs as a contiguous
sub-sequence of `l` (Python's `sub in l` on strings). -/
def listContainsSub (sub : List Char) : List Char → Bool
  | [] => sub.isEmpty
  | b :: bs => listPrefixEq sub (b :: bs) || listContainsSub sub bs

/-- Python `sub in s` for strings. -/
def strContains (s sub : String) : Bool :=
  listContainsSub sub.data s.data

/-- Python `s.startswith(p)`. -/
def strStartsWith (s p : String) : Bool :=
  listPrefixEq p.data s.data

/-- The three dish categories of the classifier. -/
inductive Category
  | vegetarian
  | meat
  | fish
deriving DecidableEq

/-- `DishClassifier.CATEGORY_MARKERS`: section-header phrases per category. -/
def CATEGORY_MARKERS : Category → List String
  | Category.vegetarian =>
      ["vegetariskt:", "vegetariskt", "vego:", "vego", "vegansk:", "vegansk",
       "vegan:", "vegan", "vegetarisk:", "vegetarisk", "grönt:", "grönt",
       "växtbaserat:", "växtbaserat", "veganskt alternativ:", "veganskt alternativ"]
  | Category.fish =>
      ["fisk:", "fisk", "fiskrätt:", "fiskrätt", "dagens fisk:", "dagens fisk",
       "skaldjur:", "skaldjur"]
  | Category.meat =>
      ["kött:", "kött", "kötträtt:", "kötträtt", "dagens kött:", "dagens kött",
       "fågel:", "fågel"]

/-- `DishClassifier.FISH_KEYWORDS`. -/
def FISH_KEYWORDS : List String :=
  ["fisk", "lax", "torsk", "sej", "räkor", "scampi", "hummer", "skaldjur",
   "tonfisk", "sill", "strömming", "gös", "abborre", "sardiner", "makrill",
   "hälleflundra", "rödspätta", "piggvar", "havskräfta", "kummel", "fish"]

/-- `DishClassifier.MEAT_KEYWORDS`. -/
def MEAT_KEYWORDS : List String :=
  ["kött", "kyckling", "fläsk", "biff", "oxfilé", "kalv", "lamm", "älg",
   "ren", "ankbröst", "fågel", "entrecote", "ryggbiff", "sidfläsk",
   "bacon", "chorizo", "korv", "köttbullar", "hamburgare", "schnitzel",
   "frikadeller", "pulled pork", "revbensspjäll", "korvstroganoff",
   "wallenbergare", "pytt i panna", "raggmunk med fläsk", "coq au vin",
   "porchetta", "färsbiff", "kycklinglår", "nötkött", "fläskkarré"]

/-- `DishClassifier.VEGETARIAN_KEYWORDS`. -/
def VEGETARIAN_KEYWORDS : List String :=
  ["vego", "vegan", "vegetarisk", "halloumi", "falafel", "tempeh",
   "tofu", "vegansk", "vegetariskt", "bönor", "linser", "quinoa",
   "seitan", "svampgryta", "svampsås", "svampsoppa", "rotselleri", "selleri",
   "kikärtor", "grönsaker", "vegoburgare", "vegoköttbullar", "chili med bönor",
   "böff ala lindström", "gnocchi", "zucchini", "aubergine", "moussaka på vegofärs",
   "långbakad rotselleri", "skogssvamp", "tempura svamp", "tortellini", "ricotta",
   "spenat"]

/-- `DishClassifier.MEAT_DISHES`: special Swedish dishes always classified
as meat. -/
def MEAT_DISHES : List String :=
  ["ärtsoppa", "pannkaka"]

/-- `DishClassifier.SKIP_LABELS`: structural header phrases to skip. -/
def SKIP_LABELS : List String :=
  ["extra", "övrig", "övrigt", "dessert", "tillbehör"]

/-- The explicit strong vegetarian/vegan indicator substrings checked first
in `classify_dish` (local list `explicit_veg_markers` in the source). -/
def explicit_veg_markers : List String :=
  ["vegan", "vegansk", "vegetarisk", "vegetariskt", "vego", "morot", "morötter"]

/-- The connective words that make an otherwise unclassified dish default
to meat (`['serveras', ' med ', 'till', 'samt', 'och']` in the source). -/
def DEFAULT_MEAT_WORDS : List String :=
  ["serveras", " med ", "till", "samt", "och"]

/-- Result of classifying a single dish line: a section marker for a
category, a concrete category, or `unclassified` (Python `None`). -/
inductive ClassifyResult
  | marker (c : Category)
  | cat (c : Category)
  | unclassified
deriving DecidableEq

/-- The order in which `classify_dish` iterates `CATEGORY_MARKERS`
(Python dict insertion order: vegetarian, fish, meat). -/
def markerOrder : List Category :=
  [Category.vegetarian, Category.fish, Category.meat]

/-- Whether the lowercased trimmed line matches a marker phrase of
category `c`: exactly, with a trailing colon, or as the phrase plus colon
at the start of the line. -/
def catMarkerMatch (dish_lower : String) (c : Category) : Bool :=
  (CATEGORY_MARKERS c).any fun m =>
    dish_lower == m || dish_lower == m ++ ":" || strStartsWith dish_lower (m ++ ":")

/-- The marker-detection loop of `classify_dish`: first matching category
in the fixed iteration order wins. -/
def markerMatch (dish_lower : String) : Option Category :=
  markerOrder.findSome? fun c =>
    if catMarkerMatch dish_lower c then some c else none

/-- The keyword-precedence chain of `classify_dish`, run when the line is
not a marker: explicit vegetarian indicators, then special meat dishes,
then meat keywords, then fish keywords, then vegetarian keywords, then the
inherited marker category, then connective-word default-to-meat, else
unclassified. -/
def keywordClassify (dish_lower : String) (previous_category : Option Category) :
    ClassifyResult :=
  if explicit_veg_markers.any (fun m => strContains dish_lower m) then
    ClassifyResult.cat Category.vegetarian
  else if MEAT_DISHES.any (fun d => strContains dish_lower d) then
    ClassifyResult.cat Category.meat
  else if MEAT_KEYWORDS.any (fun k => strContains dish_lower k) then
    ClassifyResult.cat Category.meat
  else if FISH_KEYWORDS.any (fun k => strContains dish_lower k) then
    ClassifyResult.cat Category.fish
  else if VEGETARIAN_KEYWORDS.any (fun k => strContains dish_lower k) then
    ClassifyResult.cat Category.vegetarian
  else
    match previous_category with
    | some c => ClassifyResult.cat c
    | none =>
        if DEFAULT_MEAT_WORDS.any (fun w => strContains dish_lower w) then
          ClassifyResult.cat Category.meat
        else
          ClassifyResult.unclassified

/-- `DishClassifier.classify_dish`: classify one dish line given the
category set by a preceding marker line, if any. The `dish_lower` local of
the source is the expression `strTrim (pyLower dish)`. -/
def classify_dish (dish : String) (previous_category : Option Category) :
    ClassifyResult :=
  match markerMatch (strTrim (pyLower dish)) with
  | some c => ClassifyResult.marker c
  | none => keywordClassify (strTrim (pyLower dish)) previous_category

/-- The three output lists of `classify_dishes`. -/
structure Categorized where
  vegetarian : List String
  meat : List String
  fish : List String
deriving DecidableEq

/-- Append the (original, unmodified) dish string to the list of the given
category. -/
def appendDish (cat : Categorized) (c : Category) (d : String) : Categorized :=
  match c with
  | Category.vegetarian => ⟨cat.vegetarian ++ [d], cat.meat, cat.fish⟩
  | Category.meat => ⟨cat.vegetarian, cat.meat ++ [d], cat.fish⟩
  | Category.fish => ⟨cat.vegetarian, cat.meat, cat.fish ++ [d]⟩

/-- The marker-reset rule inside the `classify_dishes` loop: the active
marker is cleared when the dish classified into a different category than
the marker and the divergence is witnessed by one of the three keyword
lists matching `dish.lower()` (not trimmed). -/
def resetMarker (c : Category) (cur : Option Category) (dish : String) :
    Option Category :=
  match cur with
  | none => none
  | some cur' =>
      if c ≠ cur' &&
          (FISH_KEYWORDS ++ MEAT_KEYWORDS ++ VEGETARIAN_KEYWORDS).any
            (fun k => strContains (pyLower dish) k) then
        none
      else some cur'

/-- One iteration of the loop body of `DishClassifier.classify_dishes`:
the state is the accumulated `Categorized` lists plus the current marker
category. -/
def stepFn (st : Categorized × Option Category) (dish : String) :
    Categorized × Option Category :=
  if dish == "" || (strTrim dish).length < 3 then st
  else if SKIP_LABELS.any (fun l => strContains (strTrim (pyLower dish)) l) &&
      (strTrim (pyLower dish)).length < 15 then st
  else
    match classify_dish dish st.2 with
    | ClassifyResult.marker c => (st.1, some c)
    | ClassifyResult.cat c => (appendDish st.1 c dish, resetMarker c st.2 dish)
    | ClassifyResult.unclassified => (appendDish st.1 Category.meat dish, st.2)

/-- `DishClassifier.classify_dishes`: fold the loop body over the candidate
list, starting from three empty lists and no active marker. -/
def classify_dishes (dishes : List String) : Categorized :=
  (dishes.foldl stepFn (⟨[], [], []⟩, none)).1

/-- Whether a candidate passes the empty/minimum-length and skip-label
filters at the top of the `classify_dishes` loop body. -/
def passesFilters (dish : String) : Bool :=
  !(dish == "" || (strTrim dish).length < 3) &&
  !(SKIP_LABELS.any (fun l => strContains (strTrim (pyLower dish)) l) &&
      (strTrim (pyLower dish)).length < 15)

/-- Whether a candidate is recognized as a marker line by `classify_dish`. -/
def isMarkerLine (dish : String) : Bool :=
  (markerMatch (strTrim (pyLower dish))).isSome

/-- Total number of dish strings emitted across the three lists. -/
def totalCount (c : Categorized) : Nat :=
  c.vegetarian.length + c.meat.length + c.fish.length

/-- Input to `merge_categories_for_display`: a dictionary that may lack any
of the three keys (a missing key is `none`). -/
structure MenuIn where
  vegetarian : Option (List String)
  meat : Option (List String)
  fish : Option (List String)
deriving DecidableEq

/-- Output of `merge_categories_for_display`: only the `vegetarian` and
`meat` keys remain. -/
structure MergedMenu where
  vegetarian : List String
  meat : List String
deriving DecidableEq

/-- `DishClassifier.merge_categories_for_display`: concatenate fish onto
meat, pass vegetarian through, default missing keys to empty lists. -/
def merge_categories_for_display (c : MenuIn) : MergedMenu :=
  ⟨c.vegetarian.getD [], c.meat.getD [] ++ c.fish.getD []⟩

/-! ### Helper lemmas -/

/-- The keyword chain never produces a marker result: markers are detected
only by the phrase match that precedes it in `classify_dish`. -/
theorem keywordClassify_ne_marker (dl : String) (prev : Option Category) (c : Category) :
    keywordClassify dl prev ≠ ClassifyResult.marker c := by
  unfold keywordClassify
  repeat' split
  all_goals simp

/-- `classify_dish` returns a marker result exactly when the marker phrase
match on the lowercased trimmed line succeeds. -/
theorem classify_dish_marker_iff (dish : String) (prev : Option Category) (c : Category) :
    classify_dish dish prev = ClassifyResult.marker c ↔
      markerMatch (strTrim (pyLower dish)) = some c := by
  unfold classify_dish
  cases h : markerMatch (strTrim (pyLower dish)) with
  | none => simp [keywordClassify_ne_marker]
  | some c' => simp

/-- The marker-detection loop as a priority cascade: vegetarian markers are
checked first, then fish, then meat; the first matching set wins. -/
theorem markerMatch_eq (dl : String) :
    markerMatch dl =
      (if catMarkerMatch dl Category.vegetarian then some Category.vegetarian
       else if catMarkerMatch dl Category.fish then some Category.fish
       else if catMarkerMatch dl Category.meat then some Category.meat
       else none) := by
  by_cases h1 : catMarkerMatch dl Category.vegetarian <;>
    by_cases h2 : catMarkerMatch dl Category.fish <;>
      by_cases h3 : catMarkerMatch dl Category.meat <;>
        simp [markerMatch, markerOrder, List.findSome?_cons, h1, h2, h3]

/-- Appending a dish to one of the three lists grows the total count by
one. -/
theorem appendDish_totalCount (cat : Categorized) (c : Category) (d : String) :
    totalCount (appendDish cat c d) = totalCount cat + 1 := by
  cases c <;> simp [appendDish, totalCount] <;> omega

/-- One loop iteration emits exactly one dish string when the candidate
passes the filters and is not a marker line, and none otherwise. -/
theorem stepFn_totalCount (st : Categorized × Option Category) (d : String) :
    totalCount (stepFn st d).1 =
      totalCount st.1 + (if passesFilters d && !(isMarkerLine d) then 1 else 0) := by
  unfold stepFn passesFilters isMarkerLine
  by_cases h1 : (d == "" || (strTrim d).length < 3) = true
  · simp [h1]
  · by_cases h2 : (SKIP_LABELS.any (fun l => strContains (strTrim (pyLower d)) l) &&
        (strTrim (pyLower d)).length < 15) = true
    · simp [h1, h2]
    · cases hm : markerMatch (strTrim (pyLower d)) with
      | some c =>
          have hc : classify_dish d st.2 = ClassifyResult.marker c :=
            (classify_dish_marker_iff d st.2 c).mpr hm
          simp [h1, h2, hc, hm]
      | none =>
          have hc : classify_dish d st.2 = keywordClassify (strTrim (pyLower d)) st.2 := by
            unfold classify_dish
            rw [hm]
          cases hk : keywordClassify (strTrim (pyLower d)) st.2 with
          | marker c => exact absurd hk (keywordClassify_ne_marker _ _ _)
          | cat c => simp [h1, h2, hc, hk, hm, appendDish_totalCount]
          | unclassified => simp [h1, h2, hc, hk, hm, appendDish_totalCount]

/-- Folding the loop body over a candidate list adds to the running total
exactly the number of candidates that pass the filters and are not marker
lines. -/
theorem foldl_totalCount (ds : List String) :
    ∀ st : Categorized × Option Category,
      totalCount (List.foldl stepFn st ds).1 =
        totalCount st.1 +
          (ds.filter fun d => passesFilters d && !(isMarkerLine d)).length := by
  induction ds with
  | nil => intro st; simp
  | cons d rest ih =>
      intro st
      rw [List.foldl_cons, ih, stepFn_totalCount]
      by_cases hp : (passesFilters d && !(isMarkerLine d)) = true
      · simp [List.filter_cons, hp]
        omega
      · simp [List.filter_cons, hp]

/-! ### Claim theorems -/

/-- Claim C1, counterexample: the candidate "Fisk:" passes the
empty/minimum-length/label filters, yet `classify_dishes` emits zero dish
strings for the input `["Fisk:"]` — the marker line is consumed, so the
total emitted count (0) is not the number of candidates passing the
filters (1). -/
theorem claim1_counterexample :
    passesFilters "Fisk:" = true ∧
    totalCount (classify_dishes ["Fisk:"]) = 0 := by decide

/-- Claim C1 (amended): for every input list, the total number of dish
strings emitted across the three lists of `classify_dishes` equals the
number of candidates that pass the empty/minimum-length/label filters and
are not consumed as marker lines; every such candidate is appended to
exactly one list, never dropped and never duplicated. -/
theorem claim1_count_conservation (ds : List String) :
    totalCount (classify_dishes ds) =
      (ds.filter fun d => passesFilters d && !(isMarkerLine d)).length := by
  unfold classify_dishes
  rw [foldl_totalCount]
  simp [totalCount]

/-- Claim C2: a line that is not recognized as a marker and whose
lowercased trimmed form contains one of the explicit strong
vegetarian/vegan indicator substrings is classified vegetarian by
`classify_dish`, regardless of any meat keywords, special always-meat dish
names, or fish keywords it also contains, and regardless of the inherited
marker category. -/
theorem claim2_explicit_veg_override (dish : String) (prev : Option Category)
    (hm : markerMatch (strTrim (pyLower dish)) = none)
    (hv : explicit_veg_markers.any
      (fun m => strContains (strTrim (pyLower dish)) m) = true) :
    classify_dish dish prev = ClassifyResult.cat Category.vegetarian := by
  unfold classify_dish
  rw [hm]
  unfold keywordClassify
  rw [hv]
  rfl

/-- Witness for C2: "Vegansk ärtsoppa med fläsk och lax" contains an
explicit vegan indicator together with a special always-meat dish name, a
meat keyword and a fish keyword, and is classified vegetarian even under a
meat marker. -/
theorem claim2_witness :
    classify_dish "Vegansk ärtsoppa med fläsk och lax" (some Category.meat) =
      ClassifyResult.cat Category.vegetarian :=
  claim2_explicit_veg_override "Vegansk ärtsoppa med fläsk och lax"
    (some Category.meat) (by decide) (by decide)

/-- Claim C3: a non-marker line without explicit vegetarian indicators that
contains a meat keyword is classified meat (never fish) by `classify_dish`
— the meat-keyword check precedes the fish-keyword check — and concretely
`classify_dishes ["Fläskfilé med gräddsås"]` puts that one string in the
meat list and leaves the vegetarian and fish lists empty, although "fläsk"
contains the fish keyword "fisk"-adjacent substring collision. -/
theorem claim3_meat_before_fish :
    (∀ (dish : String) (prev : Option Category),
      markerMatch (strTrim (pyLower dish)) = none →
      explicit_veg_markers.any
        (fun m => strContains (strTrim (pyLower dish)) m) = false →
      MEAT_KEYWORDS.any
        (fun k => strContains (strTrim (pyLower dish)) k) = true →
      classify_dish dish prev = ClassifyResult.cat Category.meat) ∧
    classify_dishes ["Fläskfilé med gräddsås"] =
      ⟨[], ["Fläskfilé med gräddsås"], []⟩ := by
  constructor
  · intro dish prev hm hv hk
    unfold classify_dish
    rw [hm]
    unfold keywordClassify
    rw [hv, hk]
    simp
  · decide

/-- Witness for C3: applies the universal part at the spec's concrete
substring-collision case. -/
theorem claim3_witness :
    classify_dish "Fläskfilé med gräddsås" none = ClassifyResult.cat Category.meat :=
  claim3_meat_before_fish.1 "Fläskfilé med gräddsås" none
    (by decide) (by decide) (by decide)

/-- Every marker phrase, taken verbatim or with one extra trailing colon,
is detected by `markerMatch` as a marker of its own category. -/
theorem marker_phrases_sound (c : Category) :
    (CATEGORY_MARKERS c).all
      (fun m => markerMatch m == some c && markerMatch (m ++ ":") == some c) = true := by
  cases c <;> decide

/-- Claim C4: a line whose lowercased trimmed form exactly equals a marker
phrase of category `c`, or that phrase followed by a colon, is classified
`marker c` by `classify_dish`; and the phrase sets are consulted in the
fixed priority order vegetarian, then fish, then meat, the first matching
set winning. -/
theorem claim4_marker_detection :
    (∀ (dish : String) (prev : Option Category) (c : Category) (m : String),
      m ∈ CATEGORY_MARKERS c →
      (strTrim (pyLower dish) = m ∨ strTrim (pyLower dish) = m ++ ":") →
      classify_dish dish prev = ClassifyResult.marker c) ∧
    (∀ (dish : String) (prev : Option Category),
      (catMarkerMatch (strTrim (pyLower dish)) Category.vegetarian = true →
        classify_dish dish prev = ClassifyResult.marker Category.vegetarian) ∧
      (catMarkerMatch (strTrim (pyLower dish)) Category.vegetarian = false →
        catMarkerMatch (strTrim (pyLower dish)) Category.fish = true →
        classify_dish dish prev = ClassifyResult.marker Category.fish) ∧
      (catMarkerMatch (strTrim (pyLower dish)) Category.vegetarian = false →
        catMarkerMatch (strTrim (pyLower dish)) Category.fish = false →
        catMarkerMatch (strTrim (pyLower dish)) Category.meat = true →
        classify_dish dish prev = ClassifyResult.marker Category.meat)) := by
  constructor
  · intro dish prev c m hmem hd
    have hall := List.all_eq_true.mp (marker_phrases_sound c) m hmem
    rw [Bool.and_eq_true, beq_iff_eq, beq_iff_eq] at hall
    rcases hd with h | h
    · rw [(classify_dish_marker_iff dish prev c), h]
      exact hall.1
    · rw [(classify_dish_marker_iff dish prev c), h]
      exact hall.2
  · intro dish prev
    refine ⟨?_, ?_, ?_⟩
    · intro h1
      rw [classify_dish_marker_iff, markerMatch_eq]
      simp [h1]
    · intro h1 h2
      rw [classify_dish_marker_iff, markerMatch_eq]
      simp [h1, h2]
    · intro h1 h2 h3
      rw [classify_dish_marker_iff, markerMatch_eq]
      simp [h1, h2, h3]

/-- Witness for C4: the line "FISK" (uppercase, exact phrase form) is
detected as a fish marker. -/
theorem claim4_witness :
    classify_dish "FISK" none = ClassifyResult.marker Category.fish :=
  claim4_marker_detection.1 "FISK" none Category.fish "fisk"
    (by decide) (Or.inl (by decide))

/-- Claim C5, counterexample: "Vegetarian:" (English spelling) is not a
phrase of the marker table, which is Swedish; on the claim's exact input
the vegetarian list stays empty and all three candidates — including the
would-be marker line — default to the meat list. -/
theorem claim5_counterexample :
    classify_dishes ["Vegetarian:", "Dish A", "Dish B"] =
      ⟨[], ["Vegetarian:", "Dish A", "Dish B"], []⟩ := by decide

/-- Claim C5 (amended): with an actual vegetarian marker phrase from the
code's table, `classify_dishes ["Vegetariskt:", "Dish A", "Dish B"]`
classifies both keyword-free dishes as vegetarian via the persisting
marker, and the marker line itself is not emitted. -/
theorem claim5_marker_persistence :
    classify_dishes ["Vegetariskt:", "Dish A", "Dish B"] =
      ⟨["Dish A", "Dish B"], [], []⟩ := by decide

/-- Claim C6: on the input `["Vegetarian:", "Ärtsoppa"]` the string
"Ärtsoppa" is placed in the meat list; in general a non-marker line
without explicit vegetarian indicators that contains a special always-meat
dish name is classified meat even when a vegetarian marker is active; and
with the genuine marker line `["Vegetariskt:", "Ärtsoppa"]` the dish still
lands in the meat list. -/
theorem claim6_meat_dish_override :
    "Ärtsoppa" ∈ (classify_dishes ["Vegetarian:", "Ärtsoppa"]).meat ∧
    (∀ dish : String,
      markerMatch (strTrim (pyLower dish)) = none →
      explicit_veg_markers.any
        (fun m => strContains (strTrim (pyLower dish)) m) = false →
      MEAT_DISHES.any (fun d => strContains (strTrim (pyLower dish)) d) = true →
      classify_dish dish (some Category.vegetarian) = ClassifyResult.cat Category.meat) ∧
    classify_dishes ["Vegetariskt:", "Ärtsoppa"] = ⟨[], ["Ärtsoppa"], []⟩ := by
  refine ⟨by decide, ?_, by decide⟩
  intro dish hm hv hd
  unfold classify_dish
  rw [hm]
  unfold keywordClassify
  rw [hv, hd]
  rfl

/-- Witness for C6: "Ärtsoppa" under an active vegetarian marker is
classified meat. -/
theorem claim6_witness :
    classify_dish "Ärtsoppa" (some Category.vegetarian) =
      ClassifyResult.cat Category.meat :=
  claim6_meat_dish_override.2.1 "Ärtsoppa" (by decide) (by decide) (by decide)

/-- Claim C7, counterexample: the loop appends the candidate verbatim, not
whitespace-trimmed — classifying the single candidate
"  Kyckling med ris  " emits the string with its surrounding spaces
intact, which differs from its trimmed form. -/
theorem claim7_counterexample :
    classify_dishes ["  Kyckling med ris  "] =
      ⟨[], ["  Kyckling med ris  "], []⟩ ∧
    strTrim "  Kyckling med ris  " ≠ "  Kyckling med ris  " := by decide

/-- Claim C7 (amended): for every candidate that passes the filters, the
loop body appends the candidate's original text unaltered (leading and
trailing whitespace included) to the list of its classified category, and
a candidate classified `unclassified` is appended to the meat list. -/
theorem claim7_appended_verbatim (cats : Categorized) (cur : Option Category)
    (dish : String) (c : Category)
    (hf : passesFilters dish = true) :
    (classify_dish dish cur = ClassifyResult.cat c →
      (stepFn (cats, cur) dish).1 = appendDish cats c dish) ∧
    (classify_dish dish cur = ClassifyResult.unclassified →
      (stepFn (cats, cur) dish).1 = appendDish cats Category.meat dish) := by
  rw [passesFilters, Bool.and_eq_true, Bool.not_eq_true', Bool.not_eq_true'] at hf
  obtain ⟨h1, h2⟩ := hf
  constructor
  · intro hc
    simp [stepFn, h1, h2, hc]
  · intro hc
    simp [stepFn, h1, h2, hc]

/-- Witness for C7: the untrimmed candidate "  Kyckling med ris  " is
itself appended to the meat list. -/
theorem claim7_witness :
    (stepFn (⟨[], [], []⟩, none) "  Kyckling med ris  ").1 =
      appendDish ⟨[], [], []⟩ Category.meat "  Kyckling med ris  " :=
  (claim7_appended_verbatim ⟨[], [], []⟩ none "  Kyckling med ris  " Category.meat
      (by decide)).1 (by decide)

/-- Claim C8: `merge_categories_for_display` passes the vegetarian list
through, produces the meat list as original meat followed by original fish
(hence is length-preserving and order/frame-preserving), defaults missing
keys to empty lists, and is a no-op on an already-merged, fish-absent
structure. -/
theorem claim8_merge_properties (m : MenuIn) :
    (merge_categories_for_display m).vegetarian = m.vegetarian.getD [] ∧
    (merge_categories_for_display m).meat = m.meat.getD [] ++ m.fish.getD [] ∧
    (merge_categories_for_display m).meat.length =
      (m.meat.getD []).length + (m.fish.getD []).length ∧
    merge_categories_for_display
        ⟨some (merge_categories_for_display m).vegetarian,
         some (merge_categories_for_display m).meat, none⟩ =
      merge_categories_for_display m := by
  refine ⟨rfl, rfl, ?_, ?_⟩
  · simp [merge_categories_for_display]
  · simp [merge_categories_for_display]

/-- Claim C9: a candidate passing the filters whose lowercased trimmed
form starts with a marker phrase plus colon (with arbitrary trailing dish
text) is consumed entirely by the loop body: the three lists are left
unchanged — the trailing text is never emitted — and the active marker is
set to the detected category; concretely
`classify_dishes ["Fisk: Lax med dillsås"]` emits nothing at all. -/
theorem claim9_marker_line_consumed :
    (∀ (cats : Categorized) (cur : Option Category) (dish : String)
        (c : Category) (m : String),
      m ∈ CATEGORY_MARKERS c →
      strStartsWith (strTrim (pyLower dish)) (m ++ ":") = true →
      passesFilters dish = true →
      (markerMatch (strTrim (pyLower dish))).isSome = true ∧
      stepFn (cats, cur) dish = (cats, markerMatch (strTrim (pyLower dish)))) ∧
    classify_dishes ["Fisk: Lax med dillsås"] = ⟨[], [], []⟩ := by
  constructor
  · intro cats cur dish c m hmem hsw hf
    have hcat : catMarkerMatch (strTrim (pyLower dish)) c = true := by
      rw [catMarkerMatch, List.any_eq_true]
      exact ⟨m, hmem, by rw [hsw]; simp⟩
    have hsome : (markerMatch (strTrim (pyLower dish))).isSome = true := by
      rw [markerMatch_eq]
      rcases c with _ | _ | _
      · simp [hcat]
      · by_cases hv : catMarkerMatch (strTrim (pyLower dish)) Category.vegetarian <;>
          by_cases hfi : catMarkerMatch (strTrim (pyLower dish)) Category.fish <;>
            simp [hv, hfi, hcat]
      · by_cases hv : catMarkerMatch (strTrim (pyLower dish)) Category.vegetarian <;>
          simp [hv, hcat]
    obtain ⟨c', hc'⟩ := Option.isSome_iff_exists.mp hsome
    have hcd : classify_dish dish cur = ClassifyResult.marker c' :=
      (classify_dish_marker_iff dish cur c').mpr hc'
    rw [passesFilters, Bool.and_eq_true, Bool.not_eq_true', Bool.not_eq_true'] at hf
    obtain ⟨h1, h2⟩ := hf
    refine ⟨hsome, ?_⟩
    simp [stepFn, h1, h2, hcd, hc']
  · decide

/-- Witness for C9: at "Fisk: Lax med dillsås" the loop body leaves the
lists untouched and sets the marker. -/
theorem claim9_witness :
    (markerMatch (strTrim (pyLower "Fisk: Lax med dillsås"))).isSome = true ∧
    stepFn (⟨[], [], []⟩, none) "Fisk: Lax med dillsås" =
      (⟨[], [], []⟩, markerMatch (strTrim (pyLower "Fisk: Lax med dillsås"))) :=
  claim9_marker_line_consumed.1 ⟨[], [], []⟩ none "Fisk: Lax med dillsås"
    Category.fish "fisk" (by decide) (by decide) (by decide)

/-- Claim C10: the active marker is cleared only when the divergence is
witnessed by the three keyword lists — a non-marker candidate in whose
lowercased text no fish/meat/vegetarian keyword occurs leaves the active
marker unchanged (in particular one classified meat purely via the special
always-meat dish list), so the marker still applies to subsequent
keyword-free candidates: concretely
`["Vegetariskt:", "Ärtsoppa", "Dish A"]` sends "Ärtsoppa" to meat yet
still classifies "Dish A" as vegetarian. -/
theorem claim10_marker_sticky :
    (∀ (cats : Categorized) (cur : Category) (dish : String),
      passesFilters dish = true →
      markerMatch (strTrim (pyLower dish)) = none →
      (FISH_KEYWORDS ++ MEAT_KEYWORDS ++ VEGETARIAN_KEYWORDS).any
        (fun k => strContains (pyLower dish) k) = false →
      (stepFn (cats, some cur) dish).2 = some cur) ∧
    classify_dishes ["Vegetariskt:", "Ärtsoppa", "Dish A"] =
      ⟨["Dish A"], ["Ärtsoppa"], []⟩ := by
  constructor
  · intro cats cur dish hf hm hany
    rw [passesFilters, Bool.and_eq_true, Bool.not_eq_true', Bool.not_eq_true'] at hf
    obtain ⟨h1, h2⟩ := hf
    have hcd : classify_dish dish (some cur) =
        keywordClassify (strTrim (pyLower dish)) (some cur) := by
      unfold classify_dish
      rw [hm]
    cases hk : keywordClassify (strTrim (pyLower dish)) (some cur) with
    | marker c => exact absurd hk (keywordClassify_ne_marker _ _ _)
    | cat c =>
        simp [stepFn, h1, h2, hcd, hk, resetMarker]
        simp at hany
        exact fun _ => hany
    | unclassified =>
        simp [stepFn, h1, h2, hcd, hk]
  · decide

/-- Witness for C10: "Ärtsoppa" (classified meat solely via the special
dish list) under an active vegetarian marker leaves the marker set. -/
theorem claim10_witness :
    (stepFn (⟨[], [], []⟩, some Category.vegetarian) "Ärtsoppa").2 =
      some Category.vegetarian :=
  claim10_marker_sticky.1 ⟨[], [], []⟩ Category.vegetarian "Ärtsoppa"
    (by decide) (by decide) (by decide)

end RhLunch
